import Mathlib

/-!
Verification of the timeline synchronization and assembly subsystem of the
longform-video-generator repository, shallowly embedded from
scripts/timeline_assembler.py and scripts/audio_mixer.py.

Durations are modelled as rationals. External effects (the filesystem and
the exit status of each transcoder invocation) are modelled as explicit
oracle parameters, so every function here is the pure control/data flow of
the corresponding Python function, with all subprocess outcomes as inputs.
-/

namespace LongformVideo

/-- File paths are opaque names in this model. -/
abbrev Path := String

/-- One entry of the voiceover timing list handed to build_timeline:
a dict with optional keys text, start, end (the source reads
them with segment.get and defaults). Key end is modelled by field stop. -/
structure VoSeg where
  text : Option String := none
  start : Option ℚ := none
  stop : Option ℚ := none

/-- TimelineSegment dataclass (timeline_assembler.py lines 19-31). -/
structure TimelineSegment where
  index : ℕ
  voiceover_text : String
  vo_start : ℚ
  vo_end : ℚ
  video_path : Option Path := none
  trimmed_video_path : Option Path := none

/-- Derived property duration = vo_end - vo_start (line 29-31). -/
def TimelineSegment.duration (s : TimelineSegment) : ℚ := s.vo_end - s.vo_start

/-- Timeline dataclass (lines 34-44). -/
structure Timeline where
  segments : List TimelineSegment := []
  voiceover_path : Option Path := none
  voiceover_duration : ℚ := 0
  music_path : Option Path := none

/-- TimelineAssembler.build_timeline (lines 65-98): zips the voiceover
segments with the clip paths, enumerates the pairs, and appends one
TimelineSegment per pair. -/
def build_timeline (voiceover_segments : List VoSeg) (video_clips : List Path)
    (voiceover_path : Path) (voiceover_duration : ℚ)
    (music_path : Option Path := none) : Timeline :=
  { segments := (voiceover_segments.zip video_clips).enum.map fun ic =>
      { index := ic.1
        voiceover_text := ic.2.1.text.getD ""
        vo_start := ic.2.1.start.getD 0
        vo_end := ic.2.1.stop.getD 0
        video_path := some ic.2.2
        trimmed_video_path := none }
    voiceover_path := some voiceover_path
    voiceover_duration := voiceover_duration
    music_path := music_path }

/-- trim_clip_to_duration lines 125-129: the probed duration when the
ffprobe output parses, else the default assumption 4.0. -/
def source_duration_of_probe (probe : Option ℚ) : ℚ := probe.getD 4

/-- trim_clip_to_duration line 132: effective_duration = max(target_duration, min_duration). -/
def effective_duration (target_duration min_duration : ℚ) : ℚ :=
  max target_duration min_duration

/-- trim_clip_to_duration line 136: final_duration = min(effective_duration, source_duration). -/
def final_duration (target_duration min_duration source_duration : ℚ) : ℚ :=
  min (effective_duration target_duration min_duration) source_duration

/-- The duration passed to the transcoder with -t (lines 138-145), as a
function of the probe outcome and the two duration arguments. -/
def trim_requested_duration (probe : Option ℚ) (target_duration min_duration : ℚ) : ℚ :=
  final_duration target_duration min_duration (source_duration_of_probe probe)

/-- The temp-file name chosen for segment i (line 164, trimmed_ followed by
the index zero-padded to three digits). -/
def trimmed_path (i : ℕ) : Path :=
  let s := toString i
  "trimmed_" ++ String.mk (List.replicate (3 - s.length) '0') ++ s ++ ".mp4"

/-- One iteration of the loop in prepare_timeline_clips (lines 159-179).
Oracles: fs tells whether a path exists on disk; trim_ok is the exit
status of the trim transcode for the segment of a given index. If the
segment has no video path or the file does not exist, the segment is left
untouched (the loop continues). Otherwise, on trim success the trimmed
temp path is stored; on trim failure the ORIGINAL clip path is stored in
trimmed_video_path (line 179). -/
def prepareSegment (fs : Path → Bool) (trim_ok : ℕ → Bool)
    (s : TimelineSegment) : TimelineSegment :=
  match s.video_path with
  | none => s
  | some p =>
    if fs p then
      if trim_ok s.index then { s with trimmed_video_path := some (trimmed_path s.index) }
      else { s with trimmed_video_path := some p }
    else s

/-- prepare_timeline_clips (lines 150-181): maps the per-segment loop body
over the segments and returns True unconditionally (line 181). -/
def prepare_timeline_clips (fs : Path → Bool) (trim_ok : ℕ → Bool)
    (t : Timeline) : Timeline × Bool :=
  ({ t with segments := t.segments.map (prepareSegment fs trim_ok) }, true)

/-- The concat-list line written for one segment in concatenate_clips
(lines 192-194): the trimmed path, written only when it is set and the
file exists; otherwise nothing is written for the segment. -/
def segment_written (fs : Path → Bool) (s : TimelineSegment) : Option Path :=
  match s.trimmed_video_path with
  | some p => if fs p then some p else none
  | none => none

/-- The ordered list of file entries of concat_timeline.txt (lines 190-194). -/
def concat_list_entries (fs : Path → Bool) (t : Timeline) : List Path :=
  t.segments.filterMap (segment_written fs)

/-- _create_outro_sequence line 223: gap = target_duration - current_duration. -/
def outro_gap (current_duration target_duration : ℚ) : ℚ :=
  target_duration - current_duration

/-- _create_outro_sequence line 246: the lavfi black source is generated
with d = gap + 0.5. -/
def black_fill_duration (current_duration target_duration : ℚ) : ℚ :=
  outro_gap current_duration target_duration + 1/2

/-- _create_outro_sequence lines 267-281: the faded copy of the video has
the same duration as its input (the fade filter does not change length),
it is concatenated with the black fill, and the result is cut with
-t target_duration; the produced file therefore lasts
min(current + black, target). -/
def spliced_duration (current_duration target_duration : ℚ) : ℚ :=
  min (current_duration + black_fill_duration current_duration target_duration)
    target_duration

/-- Exit statuses of the three transcoder invocations made by
_create_outro_sequence: the black-fill generation (line 250), the fade
(line 262) and the splice (line 283, combined with the output-existence
check of line 285). -/
structure OutroEnv where
  black_ok : Bool
  fade_ok : Bool
  splice_ok : Bool

/-- _create_outro_sequence control flow (lines 241-289). The black-fill
exit status is not inspected by the source, but the splice reads the black
file through the concat demuxer, so the splice invocation can only succeed
when the black fill was actually produced; a fade failure returns None at
line 265; a splice failure or missing output returns None at line 289. -/
def create_outro_sequence (env : OutroEnv) : Option Path :=
  if env.fade_ok = false then none
  else if env.black_ok && env.splice_ok then some "video_with_outro.mp4"
  else none

/-- assemble lines 391-409 (step 2.5): starting from the concatenated
video, when its duration is below the voiceover duration the outro result
replaces it (and the recorded duration becomes voiceover_duration + 0.5);
when the outro returns None, or no gap exists, the concatenated video is
kept with its measured duration. -/
def chooseFinalVideo (concat_path : Path) (video_duration voiceover_duration : ℚ)
    (outro_result : Option Path) : Path × ℚ :=
  if video_duration < voiceover_duration then
    match outro_result with
    | some p => (p, voiceover_duration + 1/2)
    | none => (concat_path, video_duration)
  else (concat_path, video_duration)

/-- The temp path of the concatenated video (line 372). -/
def concat_temp_path : Path := "timeline_concat.mp4"

/-- All external outcomes consumed by one run of assemble: the filesystem,
the per-segment trim exit statuses, the concatenation exit status, the
probe of the concatenated file (None when the probe output fails to
parse, in which case line 387 falls back to 0), the outro transcode
outcomes and the audio-mix exit status. -/
structure AssembleEnv where
  fs : Path → Bool
  trim_ok : ℕ → Bool
  concat_ok : Bool
  concat_probe : Option ℚ
  outro : OutroEnv
  mix_ok : Bool

/-- The dict returned by assemble (lines 369, 374, 419, 423-428). -/
structure AssembleResult where
  success : Bool
  error : Option String := none
  local_path : Option Path := none
  duration : Option ℚ := none
  video_duration : Option ℚ := none

/-- TimelineAssembler.assemble (lines 349-428). -/
def assemble (env : AssembleEnv) (t : Timeline) (output_path : Path) : AssembleResult :=
  if (prepare_timeline_clips env.fs env.trim_ok t).2 = false then
    { success := false, error := some "Failed to prepare clips" }
  else if env.concat_ok = false then
    { success := false, error := some "Failed to concatenate clips" }
  else
    let video_duration := env.concat_probe.getD 0
    let fv := chooseFinalVideo concat_temp_path video_duration t.voiceover_duration
      (create_outro_sequence env.outro)
    if env.mix_ok = false then
      { success := false, error := some "Failed to mix audio" }
    else
      { success := true
        local_path := some output_path
        duration := some t.voiceover_duration
        video_duration := some fv.2 }

/-- One stage of an audio filter chain occurring in the constructed
ffmpeg filter graphs: a resample to a given rate, a volume multiplier, or
the mono-to-stereo pan used by the audio mixer. -/
inductive AudioStage where
  | aresample (rate : ℕ)
  | volume (level : ℚ)
  | pan_stereo
deriving DecidableEq

/-- Shape of an amix-based filter_complex as constructed by the sources:
the per-input pre-chains, which ffmpeg input index feeds each amix slot,
the amix options, and the stages applied after the amix. -/
structure AmixGraph where
  first_pre : List AudioStage
  second_pre : List AudioStage
  first_input : ℕ
  second_input : ℕ
  duration_first : Bool
  dropout_transition : Option ℚ
  normalize : Bool
  post_amix : List AudioStage

/-- Output-duration-relevant muxing flags of a constructed ffmpeg command:
which input the video stream is mapped from, and whether -shortest or a
-t limit is present. -/
structure MuxFlags where
  maps_video_from : ℕ
  shortest : Bool
  t_limit : Option ℚ

/-- The filter_complex built by mix_final_audio in the music branch
(timeline_assembler.py lines 307-311): input 1 (the voiceover) is
resampled to 48000 and feeds the first amix slot; input 2 (the music) is
resampled to 48000 and attenuated by music_volume; amix has inputs=2,
duration=first, normalize=0; nothing follows the amix. -/
def mix_final_audio_graph (music_volume : ℚ) : AmixGraph :=
  { first_pre := [.aresample 48000]
    second_pre := [.aresample 48000, .volume music_volume]
    first_input := 1
    second_input := 2
    duration_first := true
    dropout_transition := none
    normalize := false
    post_amix := [] }

/-- The muxing flags of both branches of mix_final_audio (lines 313-340):
video mapped from input 0, no -shortest, no -t. -/
def mix_final_audio_flags : MuxFlags :=
  { maps_video_from := 0, shortest := false, t_limit := none }

/-- AudioMixConfig dataclass (audio_mixer.py lines 20-37). -/
structure AudioMixConfig where
  target_sample_rate : ℕ := 48000
  target_channels : ℕ := 2
  voice_target_lufs : ℚ := -16
  music_target_lufs : ℚ := -26
  voice_volume : ℚ := 1
  music_volume : ℚ := 3/20
  output_lufs : ℚ := -16
  output_true_peak : ℚ := -3/2

/-- The -af chain of the voice normalization command in
AudioMixer.mix_voice_and_music (lines 199-201): resample to the target
rate, plus a mono-to-stereo pan when the probed channel count is 1. -/
def voice_normalize_stages (cfg : AudioMixConfig) (channels : ℕ) : List AudioStage :=
  .aresample cfg.target_sample_rate :: (if channels = 1 then [.pan_stereo] else [])

/-- The -af chain of the music normalization command in
AudioMixer.mix_voice_and_music (line 221): resample to the target rate. -/
def music_normalize_stages (cfg : AudioMixConfig) : List AudioStage :=
  [.aresample cfg.target_sample_rate]

/-- The filter_complex built by AudioMixer.mix_voice_and_music
(lines 234-238): input 1 (normalized voice) scaled by voice_volume feeds
the first amix slot, input 2 (normalized music) scaled by music_volume
feeds the second; amix has duration=first, dropout_transition=0,
normalize=0, and is followed by the post-mix gain volume=1.5. -/
def mix_voice_and_music_graph (cfg : AudioMixConfig) : AmixGraph :=
  { first_pre := [.volume cfg.voice_volume]
    second_pre := [.volume cfg.music_volume]
    first_input := 1
    second_input := 2
    duration_first := true
    dropout_transition := some 0
    normalize := false
    post_amix := [.volume (3/2)] }

/-- Modelled from the documented semantics of the amix filter for the
constructed graphs: with duration=first the mixed stream lasts as long as
the first input, otherwise as long as the longest input (resample, volume
and pan stages preserve duration). -/
def amix_duration (g : AmixGraph) (first_dur second_dur : ℚ) : ℚ :=
  if g.duration_first then first_dur else max first_dur second_dur

/-- Modelled from the documented muxing semantics of the external
transcoder for the constructed commands: without -shortest or -t the
container lasts as long as the longest mapped stream; -shortest would cut
at the shortest stream and -t at the given limit. -/
def mux_duration (flags : MuxFlags) (video_dur audio_dur : ℚ) : ℚ :=
  let base := if flags.shortest then min video_dur audio_dur else max video_dur audio_dur
  match flags.t_limit with
  | some tl => min tl base
  | none => base

/-- Duration of the file produced by mix_final_audio (lines 291-347) as a
function of the stream durations: in the music branch the audio stream is
the amix output fed first by the voiceover; in the voiceover-only branch
the audio stream is the voiceover itself; both branches mux with
mix_final_audio_flags. -/
def mix_output_duration (music_volume : ℚ) (video_dur vo_dur : ℚ)
    (music_dur : Option ℚ) : ℚ :=
  match music_dur with
  | some md =>
    mux_duration mix_final_audio_flags video_dur
      (amix_duration (mix_final_audio_graph music_volume) vo_dur md)
  | none => mux_duration mix_final_audio_flags video_dur vo_dur

/-- A concrete segment with an existing source clip, used to exercise the
trim-failure branch of prepare_timeline_clips. -/
def sample_segment : TimelineSegment :=
  { index := 0, voiceover_text := "intro", vo_start := 0, vo_end := 3
    video_path := some "clip_000.mp4", trimmed_video_path := none }

/-- A concrete first voiceover timing entry. -/
def sample_vo_first : VoSeg := { text := some "first", start := some 0, stop := some 2 }

/-- A concrete second voiceover timing entry. -/
def sample_vo_second : VoSeg := { text := some "second", start := some 2, stop := some 5 }

/-- Helper: chooseFinalVideo keeps the concatenated video and its measured
duration whenever the outro result is None. -/
theorem chooseFinalVideo_none (c : Path) (vd vod : ℚ) :
    chooseFinalVideo c vd vod none = (c, vd) := by
  unfold chooseFinalVideo
  split <;> rfl

/-- Helper: chooseFinalVideo ignores the outro result whenever no gap
exists (the guard video_duration < voiceover_duration is false). -/
theorem chooseFinalVideo_no_gap (c : Path) (vd vod : ℚ) (r : Option Path)
    (h : vod ≤ vd) : chooseFinalVideo c vd vod r = (c, vd) := by
  unfold chooseFinalVideo
  rw [if_neg (not_lt.mpr h)]

/-- Helper: create_outro_sequence returns None as soon as any of the three
transcode steps fails. -/
theorem create_outro_sequence_eq_none (oe : OutroEnv)
    (h : oe.black_ok = false ∨ oe.fade_ok = false ∨ oe.splice_ok = false) :
    create_outro_sequence oe = none := by
  rcases h with h | h | h <;> cases hf : oe.fade_ok <;>
    simp [create_outro_sequence, h, hf]

end LongformVideo

namespace LongformVideo

/-- Claim C1: for a trim whose probe succeeds with source duration s, the
duration requested of the transcoder is exactly min(max(target, min), s);
it never exceeds s, and whenever s is at most the effective target the full
source duration s is requested (the clip is used as-is, never extended). -/
theorem trim_requested_duration_spec (t m s : ℚ) :
    trim_requested_duration (some s) t m = min (max t m) s ∧
    trim_requested_duration (some s) t m ≤ s ∧
    (s ≤ effective_duration t m → trim_requested_duration (some s) t m = s) := by
  refine ⟨rfl, min_le_right _ _, fun h => ?_⟩
  simp only [trim_requested_duration, final_duration, source_duration_of_probe, Option.getD_some]
  exact min_eq_right h

/-- Witness for C1 at target 5, floor 2, source 3 (source shorter than the
effective target, so the full source duration is requested). -/
theorem trim_requested_duration_spec_witness :
    trim_requested_duration (some 3) 5 2 = min (max 5 2) 3 ∧
    trim_requested_duration (some 3) 5 2 ≤ 3 ∧
    (3 ≤ effective_duration 5 2 → trim_requested_duration (some 3) 5 2 = 3) :=
  trim_requested_duration_spec 5 2 3

/-- Claim C2: when the concatenated video of duration vd falls strictly
short of the voiceover duration vod, the outro is invoked with target
vod + 0.5; the black fill lasts gap + 0.5 (gap being the target minus the
current duration), the splice is hard-trimmed to exactly vod + 0.5, the
final duration is at least vod, and on success the assembled video is the
outro output with recorded duration vod + 0.5. -/
theorem outro_coverage_spec (vd vod : ℚ) (c p : Path) (h : vd < vod) :
    black_fill_duration vd (vod + 1/2) = outro_gap vd (vod + 1/2) + 1/2 ∧
    spliced_duration vd (vod + 1/2) = vod + 1/2 ∧
    vod ≤ spliced_duration vd (vod + 1/2) ∧
    chooseFinalVideo c vd vod (some p) = (p, vod + 1/2) := by
  have h2 : spliced_duration vd (vod + 1/2) = vod + 1/2 := by
    unfold spliced_duration black_fill_duration outro_gap
    rw [min_eq_right (by linarith)]
  refine ⟨rfl, h2, by rw [h2]; linarith, ?_⟩
  unfold chooseFinalVideo
  rw [if_pos h]

/-- Witness for C2 with a 10s concatenated video against a 12s voiceover. -/
theorem outro_coverage_spec_witness :
    black_fill_duration 10 (12 + 1/2) = outro_gap 10 (12 + 1/2) + 1/2 ∧
    spliced_duration 10 (12 + 1/2) = 12 + 1/2 ∧
    (12 : ℚ) ≤ spliced_duration 10 (12 + 1/2) ∧
    chooseFinalVideo "timeline_concat.mp4" 10 12 (some "video_with_outro.mp4")
      = ("video_with_outro.mp4", 12 + 1/2) :=
  outro_coverage_spec 10 12 "timeline_concat.mp4" "video_with_outro.mp4" (by norm_num)

/-- Counterexample to claim C3: for a segment whose source clip exists but
whose trim transcode fails, prepare_timeline_clips does NOT leave the
trimmed-clip field unset — it stores the original clip path there — and
the segment is NOT skipped by the concatenation list writer: the original
untrimmed clip is written. -/
theorem trim_failure_counterexample :
    (prepareSegment (fun _ => true) (fun _ => false) sample_segment).trimmed_video_path
      = some "clip_000.mp4" ∧
    concat_list_entries (fun _ => true)
      { segments := [prepareSegment (fun _ => true) (fun _ => false) sample_segment] }
      = ["clip_000.mp4"] := by
  constructor <;> rfl

/-- Claim C3, amended: a segment with no source clip (path unset, or file
not existing) is left untouched — its trimmed field stays unset and it is
omitted from the concat list; a probe failure does not fail the trim (the
source duration defaults to 4.0); but when the trim transcode fails the
segment is NOT skipped: the original untrimmed clip path is substituted
into trimmed_video_path and is written to the concat list. -/
theorem trim_failure_spec (fs : Path → Bool) (trim_ok : ℕ → Bool)
    (s : TimelineSegment) (p : Path) :
    (s.video_path = none → prepareSegment fs trim_ok s = s) ∧
    (s.video_path = some p → fs p = false → prepareSegment fs trim_ok s = s) ∧
    (s.video_path = none → s.trimmed_video_path = none →
      segment_written fs (prepareSegment fs trim_ok s) = none) ∧
    (s.video_path = some p → fs p = true → trim_ok s.index = false →
      (prepareSegment fs trim_ok s).trimmed_video_path = some p ∧
      segment_written fs (prepareSegment fs trim_ok s) = some p) ∧
    source_duration_of_probe none = 4 := by
  refine ⟨fun h => ?_, fun h hf => ?_, fun h ht => ?_, fun h hf ht => ?_, rfl⟩
  · unfold prepareSegment
    rw [h]
  · simp [prepareSegment, h, hf]
  · unfold prepareSegment
    rw [h]
    unfold segment_written
    rw [ht]
  · simp [prepareSegment, segment_written, h, hf, ht]

/-- Witness for C3 (amended) at the concrete failing-trim segment. -/
theorem trim_failure_spec_witness :
    (sample_segment.video_path = none →
      prepareSegment (fun _ => true) (fun _ => false) sample_segment = sample_segment) ∧
    (sample_segment.video_path = some "clip_000.mp4" →
      (fun _ => true) "clip_000.mp4" = false →
      prepareSegment (fun _ => true) (fun _ => false) sample_segment = sample_segment) ∧
    (sample_segment.video_path = none → sample_segment.trimmed_video_path = none →
      segment_written (fun _ => true)
        (prepareSegment (fun _ => true) (fun _ => false) sample_segment) = none) ∧
    (sample_segment.video_path = some "clip_000.mp4" →
      (fun _ => true) "clip_000.mp4" = true →
      (fun _ => false) sample_segment.index = false →
      (prepareSegment (fun _ => true) (fun _ => false) sample_segment).trimmed_video_path
        = some "clip_000.mp4" ∧
      segment_written (fun _ => true)
        (prepareSegment (fun _ => true) (fun _ => false) sample_segment)
        = some "clip_000.mp4") ∧
    source_duration_of_probe none = 4 :=
  trim_failure_spec (fun _ => true) (fun _ => false) sample_segment "clip_000.mp4"

/-- Claim C4: when the concatenated duration is at least the voiceover
duration, the outro synthesizer result is irrelevant — the video passed on
is the concatenated video with its measured duration, and the whole
assemble run is unchanged under any replacement of the outro outcomes. -/
theorem outro_noop_spec (c : Path) (vd vod : ℚ) (r : Option Path)
    (env : AssembleEnv) (t : Timeline) (p : Path) (oe : OutroEnv)
    (h1 : vod ≤ vd) (h2 : t.voiceover_duration ≤ env.concat_probe.getD 0) :
    chooseFinalVideo c vd vod r = (c, vd) ∧
    assemble env t p = assemble { env with outro := oe } t p := by
  refine ⟨chooseFinalVideo_no_gap c vd vod r h1, ?_⟩
  unfold assemble
  dsimp only
  rw [chooseFinalVideo_no_gap _ _ _ _ h2, chooseFinalVideo_no_gap _ _ _ _ h2]

/-- Witness for C4: a 20s concatenated video against an 18s voiceover. -/
theorem outro_noop_spec_witness :
    chooseFinalVideo "timeline_concat.mp4" 20 18 (some "video_with_outro.mp4")
      = ("timeline_concat.mp4", 20) ∧
    assemble
        { fs := fun _ => true, trim_ok := fun _ => true, concat_ok := true
          concat_probe := some 20, outro := ⟨true, true, true⟩, mix_ok := true }
        { voiceover_duration := 18 } "final.mp4"
      = assemble
        { fs := fun _ => true, trim_ok := fun _ => true, concat_ok := true
          concat_probe := some 20
          outro := (⟨false, false, false⟩ : OutroEnv), mix_ok := true }
        { voiceover_duration := 18 } "final.mp4" :=
  outro_noop_spec "timeline_concat.mp4" 20 18 (some "video_with_outro.mp4")
    { fs := fun _ => true, trim_ok := fun _ => true, concat_ok := true
      concat_probe := some 20, outro := ⟨true, true, true⟩, mix_ok := true }
    { voiceover_duration := 18 } "final.mp4" ⟨false, false, false⟩
    (by norm_num) (by norm_num)

/-- Claim C7: if any of the three outro transcode steps fails, the outro
returns None, the assembler falls back to the unmodified concatenated
video with its measured duration, and the run continues through audio
mixing to a successful result instead of aborting. -/
theorem outro_fallback_spec (oe : OutroEnv) (env : AssembleEnv) (t : Timeline)
    (p c : Path) (vd vod : ℚ)
    (hfail : oe.black_ok = false ∨ oe.fade_ok = false ∨ oe.splice_ok = false)
    (henv : env.outro = oe) (hc : env.concat_ok = true) (hm : env.mix_ok = true) :
    create_outro_sequence oe = none ∧
    chooseFinalVideo c vd vod (create_outro_sequence oe) = (c, vd) ∧
    (assemble env t p).success = true ∧
    (assemble env t p).video_duration = some (env.concat_probe.getD 0) := by
  have hnone := create_outro_sequence_eq_none oe hfail
  refine ⟨hnone, by rw [hnone]; exact chooseFinalVideo_none c vd vod, ?_, ?_⟩ <;>
    simp [assemble, prepare_timeline_clips, hc, hm, henv, hnone, chooseFinalVideo_none]

/-- Witness for C7: the fade step fails, yet assembly succeeds using the
concatenated video. -/
theorem outro_fallback_spec_witness :
    create_outro_sequence ⟨true, false, true⟩ = none ∧
    chooseFinalVideo "timeline_concat.mp4" 10 12
        (create_outro_sequence ⟨true, false, true⟩)
      = ("timeline_concat.mp4", 10) ∧
    (assemble
        { fs := fun _ => true, trim_ok := fun _ => true, concat_ok := true
          concat_probe := some 10, outro := ⟨true, false, true⟩, mix_ok := true }
        { voiceover_duration := 12 } "final.mp4").success = true ∧
    (assemble
        { fs := fun _ => true, trim_ok := fun _ => true, concat_ok := true
          concat_probe := some 10, outro := ⟨true, false, true⟩, mix_ok := true }
        { voiceover_duration := 12 } "final.mp4").video_duration
      = some ((some (10 : ℚ)).getD 0) :=
  outro_fallback_spec ⟨true, false, true⟩
    { fs := fun _ => true, trim_ok := fun _ => true, concat_ok := true
      concat_probe := some 10, outro := ⟨true, false, true⟩, mix_ok := true }
    { voiceover_duration := 12 } "final.mp4" "timeline_concat.mp4" 10 12
    (Or.inr (Or.inl rfl)) rfl rfl rfl

/-- Claim C10: prepare_timeline_clips returns True for every filesystem
state, every pattern of trim outcomes and every timeline, so the
"Failed to prepare clips" error branch of assemble can never be taken. -/
theorem prepare_always_true_spec (fs : Path → Bool) (trim_ok : ℕ → Bool)
    (t : Timeline) (env : AssembleEnv) (t2 : Timeline) (p : Path) :
    (prepare_timeline_clips fs trim_ok t).2 = true ∧
    (assemble env t2 p).error ≠ some "Failed to prepare clips" := by
  refine ⟨rfl, ?_⟩
  unfold assemble
  split
  · next h => simp [prepare_timeline_clips] at h
  · split
    · dsimp only
      decide
    · split
      · dsimp only
        decide
      · dsimp only
        simp

/-- Helper: length of the segment list built by build_timeline. -/
theorem build_timeline_segments_length (voSegs : List VoSeg) (clips : List Path)
    (vp : Path) (vd : ℚ) (mp : Option Path) :
    (build_timeline voSegs clips vp vd mp).segments.length
      = min voSegs.length clips.length := by
  simp [build_timeline, List.enum_length, List.length_zip]

/-- Helper: the i-th segment built by build_timeline pairs the i-th
voiceover entry with the i-th clip and carries index i. -/
theorem build_timeline_segments_getElem (voSegs : List VoSeg) (clips : List Path)
    (vp : Path) (vd : ℚ) (mp : Option Path) (i : ℕ) :
    (build_timeline voSegs clips vp vd mp).segments[i]? =
      voSegs[i]?.bind fun sg => clips[i]?.map fun c =>
        { index := i, voiceover_text := sg.text.getD "", vo_start := sg.start.getD 0
          vo_end := sg.stop.getD 0, video_path := some c
          trimmed_video_path := none } := by
  cases h1 : voSegs[i]? <;> cases h2 : clips[i]? <;>
    simp [build_timeline, List.getElem?_map, List.getElem?_enum, List.zip,
      List.getElem?_zipWith', h1, h2]

/-- Helper: the prepare loop never changes a segment index. -/
theorem prepareSegment_index (fs : Path → Bool) (trim_ok : ℕ → Bool)
    (s : TimelineSegment) : (prepareSegment fs trim_ok s).index = s.index := by
  unfold prepareSegment
  cases h : s.video_path
  · rfl
  · dsimp only
    split
    · split <;> rfl
    · rfl

/-- Helper: preparing the clips preserves the sequence of segment indices. -/
theorem prepared_indices (fs : Path → Bool) (trim_ok : ℕ → Bool) (t : Timeline) :
    ((prepare_timeline_clips fs trim_ok t).1.segments.map fun s => s.index)
      = t.segments.map fun s => s.index := by
  simp only [prepare_timeline_clips, List.map_map]
  exact List.map_congr_left fun a _ => prepareSegment_index fs trim_ok a

/-- Helper: the indices assigned by build_timeline are 0, 1, 2, ... in
narration order. -/
theorem build_timeline_indices (voSegs : List VoSeg) (clips : List Path)
    (vp : Path) (vd : ℚ) (mp : Option Path) :
    ((build_timeline voSegs clips vp vd mp).segments.map fun s => s.index)
      = List.range (min voSegs.length clips.length) := by
  apply List.ext_getElem?
  intro i
  rw [List.getElem?_map, build_timeline_segments_getElem]
  rcases Nat.lt_or_ge i (min voSegs.length clips.length) with h | h
  · have h1 : i < voSegs.length := lt_of_lt_of_le h (min_le_left _ _)
    have h2 : i < clips.length := lt_of_lt_of_le h (min_le_right _ _)
    rw [List.getElem?_eq_getElem h1, List.getElem?_eq_getElem h2]
    simp [List.getElem?_range, h]
  · have hr : (List.range (min voSegs.length clips.length))[i]? = none :=
      List.getElem?_eq_none (by simpa using h)
    rw [hr]
    rcases Nat.lt_or_ge i voSegs.length with hv | hv
    · have hc : clips.length ≤ i := by omega
      rw [List.getElem?_eq_none hc]
      cases voSegs[i]? <;> simp
    · rw [List.getElem?_eq_none hv]
      simp

/-- Counterexample to claim C5: with two voiceover segments and a single
clip path the counts differ, yet build_timeline raises nothing; it
silently truncates to one paired segment (zip semantics) and returns a
normal Timeline. No MismatchedInputError exists anywhere in the source. -/
theorem build_timeline_mismatch_counterexample :
    ((build_timeline [sample_vo_first, sample_vo_second] ["clip_000.mp4"]
        "voiceover.mp3" 5 none).segments.map fun s => s.index) = [0] ∧
    (build_timeline [sample_vo_first, sample_vo_second] ["clip_000.mp4"]
        "voiceover.mp3" 5 none).segments.length = 1 ∧
    (build_timeline [sample_vo_first, sample_vo_second] ["clip_000.mp4"]
        "voiceover.mp3" 5 none).voiceover_duration = 5 :=
  ⟨rfl, rfl, rfl⟩

/-- Claim C5, amended: build_timeline never fails; it pairs segment i with
clip i positionally for every i below the minimum of the two list lengths
and drops the unmatched tail (zip truncation). When the counts are equal
this is exactly the claimed 1:1 positional pairing; the remaining timeline
fields are copied through with no other effect. -/
theorem build_timeline_spec (voSegs : List VoSeg) (clips : List Path) (vp : Path)
    (vd : ℚ) (mp : Option Path) (i : ℕ) :
    (build_timeline voSegs clips vp vd mp).segments.length
        = min voSegs.length clips.length ∧
    ((build_timeline voSegs clips vp vd mp).segments[i]? =
      voSegs[i]?.bind fun sg => clips[i]?.map fun c =>
        { index := i, voiceover_text := sg.text.getD "", vo_start := sg.start.getD 0
          vo_end := sg.stop.getD 0, video_path := some c
          trimmed_video_path := none }) ∧
    (build_timeline voSegs clips vp vd mp).voiceover_path = some vp ∧
    (build_timeline voSegs clips vp vd mp).voiceover_duration = vd ∧
    (build_timeline voSegs clips vp vd mp).music_path = mp :=
  ⟨build_timeline_segments_length voSegs clips vp vd mp,
   build_timeline_segments_getElem voSegs clips vp vd mp i, rfl, rfl, rfl⟩

/-- Claim C9: for every timeline built by build_timeline and then prepared
with any pattern of trim outcomes, the segment indices stand in narration
order 0..n-1, and the segments that reach the concatenation list (those
with a written concat entry) keep strictly ascending index order — the
concatenation writer never reorders them. -/
theorem concat_order_spec (voSegs : List VoSeg) (clips : List Path) (vp : Path)
    (vd : ℚ) (mp : Option Path) (fs : Path → Bool) (trim_ok : ℕ → Bool) :
    (((prepare_timeline_clips fs trim_ok
          (build_timeline voSegs clips vp vd mp)).1.segments.map fun s => s.index)
        = List.range (min voSegs.length clips.length)) ∧
    List.Sorted (· < ·)
      (((prepare_timeline_clips fs trim_ok
          (build_timeline voSegs clips vp vd mp)).1.segments.filter
            fun s => (segment_written fs s).isSome).map fun s => s.index) := by
  have hidx : ((prepare_timeline_clips fs trim_ok
      (build_timeline voSegs clips vp vd mp)).1.segments.map fun s => s.index)
      = List.range (min voSegs.length clips.length) := by
    rw [prepared_indices, build_timeline_indices]
  refine ⟨hidx, ?_⟩
  have hsub : List.Sublist
      (((prepare_timeline_clips fs trim_ok
          (build_timeline voSegs clips vp vd mp)).1.segments.filter
            fun s => (segment_written fs s).isSome).map fun s => s.index)
      ((prepare_timeline_clips fs trim_ok
          (build_timeline voSegs clips vp vd mp)).1.segments.map fun s => s.index) :=
    (List.filter_sublist _).map _
  rw [hidx] at hsub
  exact (List.sorted_lt_range _).sublist hsub

/-- Counterexample to claim C6: with a 5s video, a 10s voiceover and a 3s
music track, the modelled output duration of the constructed mix command
is 10s, not the video's 5s — amix duration=first binds the mixed audio to
the voiceover (its first input), and without -shortest the container
lasts as long as the longest mapped stream; the music-absent command
behaves the same way. -/
theorem mix_duration_counterexample :
    mix_output_duration (3/20) 5 10 (some 3) = 10 ∧
    ¬ mix_output_duration (3/20) 5 10 (some 3) = 5 ∧
    mix_output_duration (3/20) 5 10 none = 10 ∧
    ¬ mix_output_duration (3/20) 5 10 none = 5 := by
  norm_num [mix_output_duration, mux_duration, amix_duration,
    mix_final_audio_flags, mix_final_audio_graph]

/-- Claim C6, amended: the final muxed duration is max(video duration,
voiceover duration) in both the music-present and music-absent cases: the
amix duration=first option makes the voiceover — ffmpeg input 1, the
first amix input — govern the mixed audio stream, the video is not an
amix input, and no -shortest or -t flag binds the output to the video.
The output equals the video duration exactly when the voiceover lasts no
longer than the video (which holds after a successful outro synthesis,
but not in the outro-fallback case). -/
theorem mix_duration_spec (mv v a : ℚ) (m : Option ℚ) :
    mix_output_duration mv v a m = max v a ∧
    (a ≤ v → mix_output_duration mv v a m = v) ∧
    (mix_final_audio_graph mv).duration_first = true ∧
    (mix_final_audio_graph mv).first_input = 1 ∧
    mix_final_audio_flags.shortest = false ∧
    mix_final_audio_flags.t_limit = none := by
  have h1 : mix_output_duration mv v a m = max v a := by
    cases m <;> simp [mix_output_duration, mux_duration, amix_duration,
      mix_final_audio_flags, mix_final_audio_graph]
  exact ⟨h1, fun h => by rw [h1]; exact max_eq_left h, rfl, rfl, rfl, rfl⟩

/-- Witness for C6 (amended) at video 10s, voiceover 7s, music 3s. -/
theorem mix_duration_spec_witness :
    mix_output_duration (3/20) 10 7 (some 3) = max 10 7 ∧
    ((7 : ℚ) ≤ 10 → mix_output_duration (3/20) 10 7 (some 3) = 10) ∧
    (mix_final_audio_graph (3/20)).duration_first = true ∧
    (mix_final_audio_graph (3/20)).first_input = 1 ∧
    mix_final_audio_flags.shortest = false ∧
    mix_final_audio_flags.t_limit = none :=
  mix_duration_spec (3/20) 10 7 (some 3)

/-- Counterexample to claim C8: the mixing command constructed by
mix_final_audio applies NO stage after the amix — there is no post-mix
gain compensation in it; the volume=1.5 post-mix gain exists only in the
other mixer, AudioMixer.mix_voice_and_music. -/
theorem mix_gain_counterexample :
    (mix_final_audio_graph (3/20)).post_amix = [] ∧
    (mix_voice_and_music_graph {}).post_amix = [AudioStage.volume (3/2)] :=
  ⟨rfl, rfl⟩

/-- Claim C8, amended: every music-present mix resamples the voiceover and
the music to the common 48 kHz rate before mixing (mix_final_audio inside
its filter graph, AudioMixer through its prior normalization commands),
attenuates the music to the configured level (default 0.15), and mixes
with amix duration=first and normalize=0; but the fixed post-mix gain
compensation (volume 1.5) is applied only by
AudioMixer.mix_voice_and_music — mix_final_audio applies no post-mix
stage at all. -/
theorem mix_graph_spec (mv : ℚ) (cfg : AudioMixConfig) (ch : ℕ) :
    (mix_final_audio_graph mv).first_pre = [AudioStage.aresample 48000] ∧
    (mix_final_audio_graph mv).second_pre
        = [AudioStage.aresample 48000, AudioStage.volume mv] ∧
    (mix_final_audio_graph mv).normalize = false ∧
    (mix_final_audio_graph mv).duration_first = true ∧
    (mix_final_audio_graph mv).post_amix = [] ∧
    (voice_normalize_stages cfg ch).head?
        = some (AudioStage.aresample cfg.target_sample_rate) ∧
    music_normalize_stages cfg = [AudioStage.aresample cfg.target_sample_rate] ∧
    (mix_voice_and_music_graph cfg).second_pre = [AudioStage.volume cfg.music_volume] ∧
    (mix_voice_and_music_graph cfg).normalize = false ∧
    (mix_voice_and_music_graph cfg).duration_first = true ∧
    (mix_voice_and_music_graph cfg).post_amix = [AudioStage.volume (3/2)] ∧
    ({} : AudioMixConfig).music_volume = 3/20 ∧
    ({} : AudioMixConfig).target_sample_rate = 48000 :=
  ⟨rfl, rfl, rfl, rfl, rfl, rfl, rfl, rfl, rfl, rfl, rfl, rfl, rfl⟩

end LongformVideo
